import Mathlib

/-!
Shallow embedding of the VolunChain backend middleware core:
the rate-limit middleware (`RateLimitMiddleware.rateLimiter`), the
authentication middleware (`authMiddleware`) and the verified-email gate
(`requireVerifiedEmail`).  Each middleware is modelled as a pure function
from the outcomes of its collaborators (rate-limit engine, token verifier,
user repository) and the request to the ordered list of client-observable
effects it performs: response-header mutations, a terminal status+JSON
response, attaching the authenticated user to the request context, and
calls to the next handler (normally or with an error).  Log emissions
(`console.log`, `logger.warn`, `logger.error`, `console.error`) are not
client-observable and are not tracked.
-/

namespace VolunChain

/-- JSON-like values appearing in the response bodies of the middlewares. -/
inductive JVal where
  | str : String → JVal
  | bool : Bool → JVal
deriving DecidableEq

/-- A JSON object body, as an ordered list of key/value fields. -/
abbrev JBody := List (String × JVal)

/-- `AuthenticatedUser`: the identity context `authMiddleware` attaches to the
request (`(req as AuthenticatedRequest).user = { id, email, role, isVerified }`). -/
structure AuthenticatedUser where
  id : String
  email : String
  role : String
  isVerified : Bool
deriving DecidableEq

/-- The live user record returned by `PrismaUserRepository.findById`.  The
middleware reads `id`, `email` and `isVerified`; the record also carries its
own `role`, which the middleware never reads. -/
structure UserRecord where
  id : String
  email : String
  role : String
  isVerified : Bool
deriving DecidableEq

/-- The claims decoded from a verified token: `jwt.verify(token, SECRET_KEY)
as { id: string; role: string }`. -/
structure DecodedUser where
  id : String
  role : String
deriving DecidableEq

/-- Outcome of `jwt.verify`: a decoded claim, or a throw (malformed, expired,
bad signature). -/
inductive VerifyResult where
  | ok : DecodedUser → VerifyResult
  | err : VerifyResult
deriving DecidableEq

/-- Outcome of `userRepository.findById`: a record, `null`, or a rejected
promise. -/
inductive LookupResult where
  | found : UserRecord → LookupResult
  | missing : LookupResult
  | fault : LookupResult
deriving DecidableEq

/-- Outcome of `userRepository.isUserVerified`: a boolean, or a rejected
promise. -/
inductive VerifiedResult where
  | ok : Bool → VerifiedResult
  | fault : VerifiedResult
deriving DecidableEq

/-- The decision returned by `rateLimitUseCase.checkRateLimit`:
`{ allowed, remaining, retryAfter }` (retry delay in minutes). -/
structure RateLimitDecision where
  allowed : Bool
  remaining : Nat
  retryAfter : Nat
deriving DecidableEq

/-- Outcome of awaiting `rateLimitUseCase.checkRateLimit(req)`: a decision,
or a rejected promise. -/
inductive EngineResult where
  | ok : RateLimitDecision → EngineResult
  | fault : EngineResult
deriving DecidableEq

/-- The parts of the Express request the middlewares read: the
`Authorization` header (absent or a string) and the optional `traceId`. -/
structure Req where
  authorization : Option String
  traceId : Option String
deriving DecidableEq

/-- One client-observable effect of a middleware. -/
inductive Effect where
  | setHeader : String → String → Effect
  | respond : Nat → JBody → Effect
  | attachUser : AuthenticatedUser → Effect
  | setUserVerified : Effect
  | callNext : Effect
  | callNextError : Effect
deriving DecidableEq

/-- The JS spread `...(req.traceId && { traceId: req.traceId })`: the field is
added exactly when `req.traceId` is truthy, i.e. present and non-empty. -/
def traceField (tid : Option String) : JBody :=
  match tid with
  | none => []
  | some t => if t = "" then [] else [("traceId", JVal.str t)]

/-- The request carries a (truthy) trace identifier. -/
def carriesTraceId (tid : Option String) : Prop :=
  ∃ s, tid = some s ∧ s ≠ ""

/-- Whether a JSON body has a field with the given key. -/
def hasField (b : JBody) (k : String) : Bool :=
  b.any (fun p => p.1 = k)

/-- `RateLimitMiddleware.rateLimiter`: await the engine; on success set the
`X-RateLimit-Remaining` header, then either send the 429 body (when
`!allowed`) or call `next()`; if the awaited call rejects, the catch block
calls `next(error)`. -/
def rateLimiter (engine : EngineResult) (req : Req) : List Effect :=
  match engine with
  | EngineResult.fault => [Effect.callNextError]
  | EngineResult.ok d =>
    Effect.setHeader "X-RateLimit-Remaining" (toString d.remaining) ::
      (if d.allowed = false then
        [Effect.respond 429
          ([("error", JVal.str "Too Many Requests"),
            ("message",
              JVal.str "You have exceeded the rate limit. Please try again later."),
            ("retryAfter", JVal.str (toString (d.retryAfter * 60) ++ " seconds"))]
            ++ traceField req.traceId)]
      else
        [Effect.callNext])

/-- JS `String.prototype.split` with the single-character separator applied by
the auth middleware: split at every space, keeping empty segments. -/
def splitSp : List Char → List Char → List (List Char)
  | [], acc => [acc.reverse]
  | c :: cs, acc =>
    if c = ' ' then acc.reverse :: splitSp cs [] else splitSp cs (c :: acc)

/-- `req.headers.authorization?.split(" ")[1]`: the segment after the first
space of the header, when the header is present and has at least one space. -/
def extractToken (authHeader : Option String) : Option String :=
  match authHeader with
  | none => none
  | some h => ((splitSp h.data []).map String.mk).get? 1

/-- `authMiddleware`: extract the token (JS-falsy check: `undefined` or the
empty string both count as no token), then inside one try/catch verify it,
look the user up by the decoded id, and branch.  A throw anywhere in the try
block — including a rejected `findById` — reaches the single catch, which
responds 401 "Invalid token". -/
def authMiddleware (verify : String → VerifyResult)
    (findById : String → LookupResult) (req : Req) : List Effect :=
  match extractToken req.authorization with
  | none => [Effect.respond 401 [("message", JVal.str "No token provided")]]
  | some token =>
    if token = "" then
      [Effect.respond 401 [("message", JVal.str "No token provided")]]
    else
      match verify token with
      | VerifyResult.err =>
        [Effect.respond 401 [("message", JVal.str "Invalid token")]]
      | VerifyResult.ok decoded =>
        match findById decoded.id with
        | LookupResult.fault =>
          [Effect.respond 401 [("message", JVal.str "Invalid token")]]
        | LookupResult.missing =>
          [Effect.respond 401 [("message", JVal.str "User not found")]]
        | LookupResult.found user =>
          if user.isVerified = false then
            [Effect.respond 403
              [("message",
                JVal.str "Email not verified. Please verify your email to proceed.")]]
          else
            [Effect.attachUser
              { id := user.id, email := user.email, role := decoded.role,
                isVerified := user.isVerified },
             Effect.callNext]

/-- `requireVerifiedEmail`: 401 when no `AuthenticatedUser` is on the request
context; otherwise re-query `isUserVerified` by the context user's id — 403
with `verificationNeeded: true` when false, mark the context user verified
and call `next()` when true; a rejected lookup reaches the catch, which
responds 500 (with `traceId` when truthy). -/
def requireVerifiedEmail (isUserVerified : String → VerifiedResult)
    (ctxUser : Option AuthenticatedUser) (req : Req) : List Effect :=
  match ctxUser with
  | none =>
    [Effect.respond 401
      [("message", JVal.str "Unauthorized - Authentication required")]]
  | some u =>
    match isUserVerified u.id with
    | VerifiedResult.fault =>
      [Effect.respond 500
        ([("message", JVal.str "Internal server error")] ++ traceField req.traceId)]
    | VerifiedResult.ok false =>
      [Effect.respond 403
        [("message", JVal.str "Forbidden - Email verification required"),
         ("verificationNeeded", JVal.bool true)]]
    | VerifiedResult.ok true =>
      [Effect.setUserVerified, Effect.callNext]

/-! ### Concrete collaborators and requests used in witnesses -/

/-- A decoded token claiming id `u1` with role `admin`. -/
def dAdmin : DecodedUser := { id := "u1", role := "admin" }

/-- A token verifier that accepts every token as `dAdmin`. -/
def vAdmin : String → VerifyResult := fun _ => VerifyResult.ok dAdmin

/-- A token verifier that rejects every token. -/
def vErr : String → VerifyResult := fun _ => VerifyResult.err

/-- The live record of user u1: verified, with role `volunteer`. -/
def uVol : UserRecord :=
  { id := "u1", email := "u1@volunchain.org", role := "volunteer", isVerified := true }

/-- The live record of user u1 with verification still pending. -/
def uUnv : UserRecord :=
  { id := "u1", email := "u1@volunchain.org", role := "volunteer", isVerified := false }

/-- A repository whose `findById` always rejects. -/
def lFault : String → LookupResult := fun _ => LookupResult.fault

/-- A repository whose `findById` always returns `null`. -/
def lMissing : String → LookupResult := fun _ => LookupResult.missing

/-- A repository that finds the verified record `uVol` for every id. -/
def lVol : String → LookupResult := fun _ => LookupResult.found uVol

/-- A repository that finds the unverified record `uUnv` for every id. -/
def lUnv : String → LookupResult := fun _ => LookupResult.found uUnv

/-- A request with header `Authorization: Bearer tok` and no trace id. -/
def rqB : Req := { authorization := some "Bearer tok", traceId := none }

/-- A request with no Authorization header and trace id `tr`. -/
def rqT : Req := { authorization := none, traceId := some "tr" }

/-- A denying rate-limit decision: retry after 1 minute. -/
def dDeny : RateLimitDecision := { allowed := false, remaining := 0, retryAfter := 1 }

/-- An `isUserVerified` collaborator answering `true` for every id. -/
def fTrue : String → VerifiedResult := fun _ => VerifiedResult.ok true

/-- An `isUserVerified` collaborator answering `false` for every id. -/
def fFalse : String → VerifiedResult := fun _ => VerifiedResult.ok false

/-- An `isUserVerified` collaborator that always rejects. -/
def fFault : String → VerifiedResult := fun _ => VerifiedResult.fault

/-- An authenticated user already on the request context, cached as verified. -/
def uCtx : AuthenticatedUser :=
  { id := "u1", email := "u1@volunchain.org", role := "volunteer", isVerified := true }

/-! ### Helper lemmas -/

/-- Splitting a space-free chunk yields a single segment. -/
theorem splitSp_no_space (l : List Char) (acc : List Char) (h : ' ' ∉ l) :
    splitSp l acc = [acc.reverse ++ l] := by
  induction l generalizing acc with
  | nil => simp [splitSp]
  | cons c cs ih =>
    rw [List.mem_cons] at h
    push_neg at h
    simp [splitSp, Ne.symm h.1, ih _ h.2]

/-- Splitting at the first space separates the space-free head segment. -/
theorem splitSp_first_space (w rest : List Char) (acc : List Char) (h : ' ' ∉ w) :
    splitSp (w ++ ' ' :: rest) acc = (acc.reverse ++ w) :: splitSp rest [] := by
  induction w generalizing acc with
  | nil => simp [splitSp]
  | cons c cs ih =>
    rw [List.mem_cons] at h
    push_neg at h
    simp [splitSp, Ne.symm h.1, ih _ h.2]

/-- A header of the form `<scheme> <token>`, with both parts space-free,
extracts exactly the token — whatever the scheme word is. -/
theorem extractToken_scheme (scheme t : String)
    (hs : ' ' ∉ scheme.data) (ht : ' ' ∉ t.data) :
    extractToken (some (scheme ++ " " ++ t)) = some t := by
  have hdata : (scheme ++ " " ++ t).data = scheme.data ++ ' ' :: t.data := by
    simp [String.data_append]
  simp only [extractToken]
  rw [hdata, splitSp_first_space _ _ _ hs, splitSp_no_space _ _ ht]
  simp

/-- A header containing no space extracts no token at all. -/
theorem extractToken_no_space (h : String) (hs : ' ' ∉ h.data) :
    extractToken (some h) = none := by
  simp only [extractToken]
  rw [splitSp_no_space _ _ hs]
  simp

/-- The `traceId` field is present exactly when the request carries a truthy
trace identifier. -/
theorem traceField_hasField (tid : Option String) :
    hasField (traceField tid) "traceId" = true ↔ carriesTraceId tid := by
  cases tid with
  | none => simp [traceField, hasField, carriesTraceId]
  | some s =>
    by_cases hs : s = "" <;> simp [traceField, hasField, carriesTraceId, hs]

/-! ### Claim theorems -/

/-- C3: whenever the engine returns a decision with `allowed = false`, the
rate-limit middleware responds immediately with status 429 and the JSON body
`error: "Too Many Requests"`, a human-readable `message`, and `retryAfter`
equal to the decision's retry delay in minutes times 60 rendered as
`"<int> seconds"`, with `traceId` present exactly when the request carries a
(truthy, i.e. non-empty) trace identifier; the next handler is not called. -/
theorem rateLimiter_denied (d : RateLimitDecision) (req : Req)
    (hd : d.allowed = false) :
    rateLimiter (EngineResult.ok d) req =
      [Effect.setHeader "X-RateLimit-Remaining" (toString d.remaining),
       Effect.respond 429
         ([("error", JVal.str "Too Many Requests"),
           ("message",
             JVal.str "You have exceeded the rate limit. Please try again later."),
           ("retryAfter", JVal.str (toString (d.retryAfter * 60) ++ " seconds"))]
           ++ traceField req.traceId)] ∧
    Effect.callNext ∉ rateLimiter (EngineResult.ok d) req ∧
    (hasField (traceField req.traceId) "traceId" = true ↔
      carriesTraceId req.traceId) := by
  refine ⟨by simp [rateLimiter, hd], by simp [rateLimiter, hd], ?_⟩
  exact traceField_hasField req.traceId

/-- C3 witness: a concrete denying decision (retry after 1 minute) on a
request carrying trace id `tr`. -/
theorem rateLimiter_denied_w :
    rateLimiter (EngineResult.ok dDeny) rqT =
      [Effect.setHeader "X-RateLimit-Remaining" (toString dDeny.remaining),
       Effect.respond 429
         ([("error", JVal.str "Too Many Requests"),
           ("message",
             JVal.str "You have exceeded the rate limit. Please try again later."),
           ("retryAfter", JVal.str (toString (dDeny.retryAfter * 60) ++ " seconds"))]
           ++ traceField rqT.traceId)] ∧
    Effect.callNext ∉ rateLimiter (EngineResult.ok dDeny) rqT ∧
    (hasField (traceField rqT.traceId) "traceId" = true ↔
      carriesTraceId rqT.traceId) :=
  rateLimiter_denied dDeny rqT rfl

/-- C4: when the awaited engine call rejects, the rate-limit middleware calls
`next(error)` exactly once and does nothing else: no 429 (or any) response is
sent and the downstream handler is not invoked normally. -/
theorem rateLimiter_fault (req : Req) :
    rateLimiter EngineResult.fault req = [Effect.callNextError] ∧
    (rateLimiter EngineResult.fault req).count Effect.callNextError = 1 ∧
    Effect.callNext ∉ rateLimiter EngineResult.fault req ∧
    ∀ s : Nat, ∀ b : JBody,
      Effect.respond s b ∉ rateLimiter EngineResult.fault req := by
  refine ⟨rfl, rfl, by simp [rateLimiter], ?_⟩
  intro s b
  simp [rateLimiter]

/-- C10: for every engine decision, the middleware's first effect is setting
the `X-RateLimit-Remaining` header to the decision's remaining count, and the
only other effect is the branch outcome: `next()` when allowed, a 429
response when denied — so denied responses also carry the header, and no
other response mutation precedes the branch. -/
theorem rateLimiter_header_first (d : RateLimitDecision) (req : Req) :
    ∃ e : Effect,
      rateLimiter (EngineResult.ok d) req =
        [Effect.setHeader "X-RateLimit-Remaining" (toString d.remaining), e] ∧
      (d.allowed = true → e = Effect.callNext) ∧
      (d.allowed = false → ∃ b : JBody, e = Effect.respond 429 b) := by
  cases hd : d.allowed with
  | true =>
    exact ⟨Effect.callNext, by simp [rateLimiter, hd], fun _ => rfl,
      fun h => absurd h (by decide)⟩
  | false =>
    refine ⟨Effect.respond 429
      ([("error", JVal.str "Too Many Requests"),
        ("message",
          JVal.str "You have exceeded the rate limit. Please try again later."),
        ("retryAfter", JVal.str (toString (d.retryAfter * 60) ++ " seconds"))]
        ++ traceField req.traceId),
      by simp [rateLimiter, hd], fun h => absurd h (by decide), fun _ => ⟨_, rfl⟩⟩

/-- C10 witness: the concrete denying decision also carries the header as its
first effect. -/
theorem rateLimiter_header_first_w :
    ∃ e : Effect,
      rateLimiter (EngineResult.ok dDeny) rqT =
        [Effect.setHeader "X-RateLimit-Remaining" (toString dDeny.remaining), e] ∧
      (dDeny.allowed = true → e = Effect.callNext) ∧
      (dDeny.allowed = false → ∃ b : JBody, e = Effect.respond 429 b) :=
  rateLimiter_header_first dDeny rqT

/-- C8: a request with no Authorization header always gets
401 "No token provided", and the outcome is the same for every token verifier
and every user repository — neither collaborator is ever consulted. -/
theorem authMiddleware_no_header (v vb : String → VerifyResult)
    (l lb : String → LookupResult) (tid : Option String) :
    authMiddleware v l { authorization := none, traceId := tid } =
      [Effect.respond 401 [("message", JVal.str "No token provided")]] ∧
    authMiddleware v l { authorization := none, traceId := tid } =
      authMiddleware vb lb { authorization := none, traceId := tid } :=
  ⟨rfl, rfl⟩

/-- C7: whenever the extracted token fails verification, the auth middleware
responds 401 "Invalid token", and the outcome is the same for every user
repository — whether or not a user with the token's id exists. -/
theorem authMiddleware_invalid_token (v : String → VerifyResult)
    (l lb : String → LookupResult) (req : Req) (t : String)
    (ht : extractToken req.authorization = some t) (hne : t ≠ "")
    (hv : v t = VerifyResult.err) :
    authMiddleware v l req =
      [Effect.respond 401 [("message", JVal.str "Invalid token")]] ∧
    authMiddleware v l req = authMiddleware v lb req := by
  constructor <;> simp [authMiddleware, ht, hne, hv]

/-- C7 witness: a rejected token on `Authorization: Bearer tok`, with a
repository that does find a user versus one that does not. -/
theorem authMiddleware_invalid_token_w :
    authMiddleware vErr lVol rqB =
      [Effect.respond 401 [("message", JVal.str "Invalid token")]] ∧
    authMiddleware vErr lVol rqB = authMiddleware vErr lMissing rqB :=
  authMiddleware_invalid_token vErr lVol lMissing rqB "tok" (by decide)
    (by decide) rfl

/-- C6: after successful verification, a `null` user yields
401 "User not found"; an unverified user yields 403 with the verification
message; a verified user yields the attached `AuthenticatedUser` with
`isVerified = true` followed by the call to the next handler — and in the
first two cases that response is the whole effect list, so the next handler
never runs. -/
theorem authMiddleware_lookup_outcomes (v : String → VerifyResult)
    (l : String → LookupResult) (req : Req) (t : String) (d : DecodedUser)
    (ht : extractToken req.authorization = some t) (hne : t ≠ "")
    (hv : v t = VerifyResult.ok d) :
    (l d.id = LookupResult.missing →
      authMiddleware v l req =
        [Effect.respond 401 [("message", JVal.str "User not found")]]) ∧
    (∀ u : UserRecord, l d.id = LookupResult.found u → u.isVerified = false →
      authMiddleware v l req =
        [Effect.respond 403
          [("message",
            JVal.str "Email not verified. Please verify your email to proceed.")]]) ∧
    (∀ u : UserRecord, l d.id = LookupResult.found u → u.isVerified = true →
      authMiddleware v l req =
        [Effect.attachUser
          { id := u.id, email := u.email, role := d.role, isVerified := true },
         Effect.callNext]) := by
  refine ⟨?_, ?_, ?_⟩
  · intro hl
    simp [authMiddleware, ht, hne, hv, hl]
  · intro u hl hu
    simp [authMiddleware, ht, hne, hv, hl, hu]
  · intro u hl hu
    simp [authMiddleware, ht, hne, hv, hl, hu]

/-- C6 witness: a valid token for the existing but unverified record `uUnv`
yields the 403 verification response. -/
theorem authMiddleware_lookup_outcomes_w :
    authMiddleware vAdmin lUnv rqB =
      [Effect.respond 403
        [("message",
          JVal.str "Email not verified. Please verify your email to proceed.")]] :=
  (authMiddleware_lookup_outcomes vAdmin lUnv rqB "tok" dAdmin (by decide)
    (by decide) rfl).2.1 uUnv rfl rfl

/-- C2: on the success path the attached `AuthenticatedUser` takes `role`
from the decoded token claim and `email` / `isVerified` from the live user
record, whatever role the live record itself carries. -/
theorem authMiddleware_role_from_token (v : String → VerifyResult)
    (l : String → LookupResult) (req : Req) (t : String) (d : DecodedUser)
    (u : UserRecord)
    (ht : extractToken req.authorization = some t) (hne : t ≠ "")
    (hv : v t = VerifyResult.ok d) (hl : l d.id = LookupResult.found u)
    (hver : u.isVerified = true) :
    authMiddleware v l req =
      [Effect.attachUser
        { id := u.id, email := u.email, role := d.role,
          isVerified := u.isVerified },
       Effect.callNext] := by
  simp [authMiddleware, ht, hne, hv, hl, hver]

/-- C2 witness: the token decodes to role `admin` while the live record
`uVol` has role `volunteer`; the attached context carries role `admin` and
the record's verification status. -/
theorem authMiddleware_role_from_token_w :
    authMiddleware vAdmin lVol rqB =
      [Effect.attachUser
        { id := "u1", email := "u1@volunchain.org", role := "admin",
          isVerified := true },
       Effect.callNext] ∧ uVol.role = "volunteer" ∧ dAdmin.role = "admin" :=
  ⟨authMiddleware_role_from_token vAdmin lVol rqB "tok" dAdmin uVol
    (by decide) (by decide) rfl rfl rfl, rfl, rfl⟩

/-- C1 counterexample: with a verifier that accepts the token and a
`findById` that rejects, the auth middleware answers the client
401 "Invalid token" — an auth failure — and neither calls `next(error)` nor
returns any 500, contradicting the claim that an upstream user-lookup fault
is never surfaced as a 401/403 and is propagated to the error handler as a
generic 500. -/
theorem authMiddleware_lookup_fault_cx :
    authMiddleware vAdmin lFault rqB =
      [Effect.respond 401 [("message", JVal.str "Invalid token")]] ∧
    Effect.callNextError ∉ authMiddleware vAdmin lFault rqB ∧
    ∀ b : JBody, Effect.respond 500 b ∉ authMiddleware vAdmin lFault rqB := by
  refine ⟨by decide, by decide, ?_⟩
  intro b
  rw [show authMiddleware vAdmin lFault rqB =
    [Effect.respond 401 [("message", JVal.str "Invalid token")]] from by decide]
  simp

/-- C1 amended: a user-lookup fault during authentication is caught by the
middleware's own try/catch and answered with 401 "Invalid token" (the same
outcome as token-verification failure); it is not forwarded to the
centralized error handler. -/
theorem authMiddleware_lookup_fault (v : String → VerifyResult)
    (l : String → LookupResult) (req : Req) (t : String) (d : DecodedUser)
    (ht : extractToken req.authorization = some t) (hne : t ≠ "")
    (hv : v t = VerifyResult.ok d) (hl : l d.id = LookupResult.fault) :
    authMiddleware v l req =
      [Effect.respond 401 [("message", JVal.str "Invalid token")]] ∧
    Effect.callNextError ∉ authMiddleware v l req := by
  constructor <;> simp [authMiddleware, ht, hne, hv, hl]

/-- C1 amended witness: the concrete accepted token with a rejecting
repository. -/
theorem authMiddleware_lookup_fault_w :
    authMiddleware vAdmin lFault rqB =
      [Effect.respond 401 [("message", JVal.str "Invalid token")]] ∧
    Effect.callNextError ∉ authMiddleware vAdmin lFault rqB :=
  authMiddleware_lookup_fault vAdmin lFault rqB "tok" dAdmin (by decide)
    (by decide) rfl rfl

/-- C9: the auth middleware never validates the scheme word of the
Authorization header: for any space-free scheme and token, the second
segment is extracted as the token and the middleware behaves exactly as with
the `Bearer` scheme; and a header containing no space at all — a bare
credential with no scheme word — yields 401 "No token provided". -/
theorem authMiddleware_scheme_unchecked (v : String → VerifyResult)
    (l : String → LookupResult) (tid : Option String) :
    (∀ scheme t : String, ' ' ∉ scheme.data → ' ' ∉ t.data →
      extractToken (some (scheme ++ " " ++ t)) = some t ∧
      authMiddleware v l
          { authorization := some (scheme ++ " " ++ t), traceId := tid } =
        authMiddleware v l
          { authorization := some ("Bearer " ++ t), traceId := tid }) ∧
    (∀ h : String, ' ' ∉ h.data →
      authMiddleware v l { authorization := some h, traceId := tid } =
        [Effect.respond 401 [("message", JVal.str "No token provided")]]) := by
  constructor
  · intro scheme t hs ht
    have h1 : extractToken (some (scheme ++ " " ++ t)) = some t :=
      extractToken_scheme scheme t hs ht
    have h2 : extractToken (some ("Bearer " ++ t)) = some t := by
      have hb : "Bearer " ++ t = "Bearer" ++ " " ++ t := rfl
      rw [hb]
      exact extractToken_scheme "Bearer" t (by decide) ht
    refine ⟨h1, ?_⟩
    simp only [authMiddleware, h1, h2]
  · intro h hh
    have h1 : extractToken (some h) = none := extractToken_no_space h hh
    simp [authMiddleware, h1]

/-- C9 witness: `Authorization: Basic tok` behaves exactly like
`Authorization: Bearer tok`, and the space-free header `soletoken` yields
401 "No token provided". -/
theorem authMiddleware_scheme_unchecked_w :
    (extractToken (some ("Basic" ++ " " ++ "tok")) = some "tok" ∧
     authMiddleware vErr lVol
         { authorization := some ("Basic" ++ " " ++ "tok"), traceId := none } =
       authMiddleware vErr lVol
         { authorization := some ("Bearer " ++ "tok"), traceId := none }) ∧
    authMiddleware vErr lVol
        { authorization := some "soletoken", traceId := none } =
      [Effect.respond 401 [("message", JVal.str "No token provided")]] :=
  ⟨(authMiddleware_scheme_unchecked vErr lVol none).1 "Basic" "tok"
      (by decide) (by decide),
   (authMiddleware_scheme_unchecked vErr lVol none).2 "soletoken" (by decide)⟩

/-- C5: the verified-email gate answers 401 when no `AuthenticatedUser` is on
the request context; its decision depends only on the live `isUserVerified`
answer for the context user's id, never on the cached `isVerified` flag; a
live `false` yields 403 with `verificationNeeded: true`; and a lookup fault
yields exactly a 500 response (with `traceId` when the request carries one),
treating the user neither as verified (no next, no verified mark) nor as
unverified (no 403). -/
theorem requireVerifiedEmail_gate (f : String → VerifiedResult)
    (u : AuthenticatedUser) (req : Req) :
    (∀ g : String → VerifiedResult,
      requireVerifiedEmail g none req =
        [Effect.respond 401
          [("message", JVal.str "Unauthorized - Authentication required")]]) ∧
    (∀ b : Bool,
      requireVerifiedEmail f (some u) req =
        requireVerifiedEmail f (some { u with isVerified := b }) req) ∧
    (f u.id = VerifiedResult.ok false →
      requireVerifiedEmail f (some u) req =
        [Effect.respond 403
          [("message", JVal.str "Forbidden - Email verification required"),
           ("verificationNeeded", JVal.bool true)]]) ∧
    (f u.id = VerifiedResult.fault →
      requireVerifiedEmail f (some u) req =
        [Effect.respond 500
          ([("message", JVal.str "Internal server error")]
            ++ traceField req.traceId)] ∧
      Effect.callNext ∉ requireVerifiedEmail f (some u) req ∧
      Effect.setUserVerified ∉ requireVerifiedEmail f (some u) req ∧
      ∀ b : JBody, Effect.respond 403 b ∉ requireVerifiedEmail f (some u) req) := by
  refine ⟨fun g => rfl, ?_, ?_, ?_⟩
  · intro b
    cases hfu : f u.id with
    | fault => simp [requireVerifiedEmail, hfu]
    | ok bv => cases bv <;> simp [requireVerifiedEmail, hfu]
  · intro hf
    simp [requireVerifiedEmail, hf]
  · intro hf
    refine ⟨by simp [requireVerifiedEmail, hf], by simp [requireVerifiedEmail, hf],
      by simp [requireVerifiedEmail, hf], ?_⟩
    intro b
    simp [requireVerifiedEmail, hf]

/-- C5 witness: a context user cached as verified whose live lookup answers
`false` gets the 403 with the `verificationNeeded` flag. -/
theorem requireVerifiedEmail_gate_w :
    requireVerifiedEmail fFalse (some uCtx) rqT =
      [Effect.respond 403
        [("message", JVal.str "Forbidden - Email verification required"),
         ("verificationNeeded", JVal.bool true)]] :=
  (requireVerifiedEmail_gate fFalse uCtx rqT).2.2.1 rfl

end VolunChain
